import Mathlib

/-!
Shallow embedding of the Steam-Search plugin (src/plugin/steam.py and
src/plugin/main.py) and proofs about it.

Python dictionaries are modelled as association lists with unique keys kept
in insertion order; `Optional[str]` becomes `Option String`; OS effects
(filesystem existence checks, Windows registry reads, HTTP requests) are
modelled by an explicit environment record of pure functions, since the
source only ever observes their results.
-/

namespace SteamSearch

/-- Python truthiness of an `Optional[str]`: `None` and `""` are falsy. -/
def pyTruthyOptStr : Option String → Bool
  | none => false
  | some s => s ≠ ""

/-- Python `str.isdigit()` restricted to ASCII digits: true iff the string is
non-empty and every character is a digit. -/
def pyIsdigit (s : String) : Bool :=
  s ≠ "" && s.toList.all Char.isDigit

/-- Python dict assignment `d[k] = v`: update in place when the key exists,
otherwise append at the end (insertion order). -/
def pySetItem {α β : Type} [BEq α] (d : List (α × β)) (k : α) (v : β) :
    List (α × β) :=
  if (d.lookup k).isSome then
    d.map (fun kv => if kv.1 == k then (k, v) else kv)
  else
    d ++ [(k, v)]

/-- Python `d.pop(k)`: remove the key. -/
def pyPop {α β : Type} [BEq α] (d : List (α × β)) (k : α) : List (α × β) :=
  d.filter (fun kv => !(kv.1 == k))

/- ------------------------------------------------------------------
Constants from src/plugin/steam.py (lines 19-23).
------------------------------------------------------------------ -/

def STEAM_SUB_KEY : String := "SOFTWARE\\WOW6432Node\\Valve\\Steam"
def DEFAULT_STEAM_PATH : String := "C:\\Program Files (x86)\\Steam"
def STEAM_EXE : String := "steam.exe"
def CACHE_FILE : String := "steam_icon_cache.pkl"
def CACHE_VERSION : Nat := 2

/- ------------------------------------------------------------------
Persistent icon cache (steam.py lines 57-83).

The pickle file content is modelled as an inductive: a well-formed pickle of
`{'version': v, 'cache': mapping}`, some other pickled dict missing those
keys is subsumed by `pickled` with arbitrary fields via the `garbage`
constructor for anything that is not such a dict or fails to deserialize.
`Option CacheFileContent` is the state of the cache file on disk
(`none` = file absent).
------------------------------------------------------------------ -/

inductive CacheFileContent : Type where
  /-- A pickled dict `{'version': v, 'cache': c}`. -/
  | pickled (version : Nat) (cache : List (Nat × Option String)) : CacheFileContent
  /-- Any file content that is not such a dict, or whose deserialization
  raises (the `except` path of `_load_icon_cache`). -/
  | garbage : CacheFileContent
deriving DecidableEq

namespace Steam

/-- `Steam._load_icon_cache` (steam.py lines 57-68): returns the value the
in-memory map `self._icon_cache` holds after loading.  The map starts empty
(line 33); it is replaced only when the file exists, deserializes to a dict,
and the dict's `version` equals `CACHE_VERSION`; any failure leaves it
empty. -/
def load_icon_cache (file : Option CacheFileContent) :
    List (Nat × Option String) :=
  match file with
  | none => []
  | some .garbage => []
  | some (.pickled v c) => if v = CACHE_VERSION then c else []

/-- `Steam._save_icon_cache` (steam.py lines 70-83): returns the cache file
content after the save, given the prior content.  An empty in-memory map is
not saved (lines 72-73), so the prior file content survives. -/
def save_icon_cache (prior : Option CacheFileContent)
    (icache : List (Nat × Option String)) : Option CacheFileContent :=
  if icache = [] then prior
  else some (.pickled CACHE_VERSION icache)

end Steam

/- ------------------------------------------------------------------
Valve VDF documents (parsed by the external `VDF` class) are nested
string/mapping trees.
------------------------------------------------------------------ -/

inductive VDFVal : Type where
  | str (s : String) : VDFVal
  | dict (entries : List (String × VDFVal)) : VDFVal
deriving BEq

/-- Environment of OS effects observed by steam.py: filesystem existence
(`os.path.exists` / `Path.exists`), `os.path.expandvars`, `os.path.abspath`,
Windows registry key/value reads (per WOW64 view), HTTP GET status
(`none` models a raised `requests.RequestException`), the md5 url hash used
to name downloaded files, the two Steam-path registry values probed by
`from_registry` (`none` models `FileNotFoundError`), and VDF file parsing
(`none` models a missing or unparsable file, i.e. `VDF(path)` raising). -/
structure Env where
  pathExists : String → Bool
  expandvars : String → String
  abspath : String → String
  regKeyExists : Nat → String → Bool
  regQuery : Nat → String → String → Option String
  httpStatus : String → Option Nat
  urlHash : String → String
  hklmInstallPath : Option String
  hkcuSteamPath : Option String
  vdfDoc : String → Option (List (String × VDFVal))

/-- winreg.KEY_WOW64_32KEY. -/
def KEY_WOW64_32KEY : Nat := 0x200
/-- winreg.KEY_WOW64_64KEY. -/
def KEY_WOW64_64KEY : Nat := 0x100

namespace Steam

/- ------------------------------------------------------------------
Registry tier: `Steam._get_registry_icon_path` (steam.py lines 177-218).
------------------------------------------------------------------ -/

/-- One iteration of the `value_name` loop (lines 193-202): read the value,
strip a trailing `,N` index, expand environment variables, and accept the
absolute path if the target exists; a registry read failure or a
non-existing target defers (`continue`). -/
def try_icon_value (env : Env) (view : Nat) (key : String)
    (value_name : String) : Option String :=
  match env.regQuery view key value_name with
  | none => none
  | some icon_path =>
    let icon_path := if icon_path.contains ',' then
        ((icon_path.splitOn ",").headD "") else icon_path
    let icon_path := env.expandvars icon_path
    if env.pathExists icon_path then some (env.abspath icon_path) else none

/-- The `InstallLocation` fallback (lines 204-215): probe conventional file
names inside the declared install location.  `os.path.join` on Windows is
modelled as backslash concatenation. -/
def try_install_location (env : Env) (view : Nat) (key : String)
    (game_id : Nat) : Option String :=
  match env.regQuery view key "InstallLocation" with
  | none => none
  | some install_path =>
    if install_path = "" then none
    else
      let install_path := env.expandvars install_path
      ([".ico", ".png", ".jpg"].flatMap fun ext =>
        ["icon", "game", toString game_id, "steam_icon"].map fun name =>
          install_path ++ "\\" ++ name ++ ext).findSome? fun path =>
        if env.pathExists path then some (env.abspath path) else none

/-- `Steam._get_registry_icon_path` (lines 177-218): for each WOW64 view and
each uninstall base path, open `{base}\Steam App {id}` (an open failure
defers), try the icon value names, then the install-location fallback. -/
def get_registry_icon_path (env : Env) (game_id : Nat) : Option String :=
  let app_key := "Steam App " ++ toString game_id
  let registry_paths :=
    ["SOFTWARE\\Microsoft\\Windows\\CurrentVersion\\Uninstall",
     "SOFTWARE\\WOW6432Node\\Microsoft\\Windows\\CurrentVersion\\Uninstall"]
  ([KEY_WOW64_32KEY, KEY_WOW64_64KEY].flatMap fun view =>
    registry_paths.map fun base_path => (view, base_path)).findSome?
    fun vb =>
      let key := vb.2 ++ "\\" ++ app_key
      if env.regKeyExists vb.1 key then
        (["DisplayIcon", "IconPath", "InstallIcon"].findSome?
          (try_icon_value env vb.1 key)).orElse
          (fun _ => try_install_location env vb.1 key game_id)
      else none

/- ------------------------------------------------------------------
Local-files tier: `Steam._get_local_icon_path` (steam.py lines 220-236).
------------------------------------------------------------------ -/

/-- `Steam._get_local_icon_path`: probe the two conventional librarycache
directories under the installation root; in an existing directory, the first
existing file among three name patterns wins.  `Path.joinpath` is modelled
as backslash concatenation. -/
def get_local_icon_path (env : Env) (steamPath : String) (game_id : Nat) :
    Option String :=
  let cache_dirs := [["appcache", "librarycache"],
                     ["steam", "appcache", "librarycache"]]
  cache_dirs.findSome? fun rel_path =>
    let cache_dir := rel_path.foldl (fun acc c => acc ++ "\\" ++ c) steamPath
    if !env.pathExists cache_dir then none
    else
      ([toString game_id ++ "_icon.jpg",
        toString game_id ++ "_library_600x900.jpg",
        toString game_id ++ ".jpg"]).findSome? fun pattern =>
        let icon_path := cache_dir ++ "\\" ++ pattern
        if env.pathExists icon_path then some icon_path else none

/- ------------------------------------------------------------------
Remote tier: `Steam._download_icon` (steam.py lines 238-265).
------------------------------------------------------------------ -/

/-- `Steam._download_icon`: try the two CDN urls in order; the first one
answering HTTP 200 is downloaded to
`{tmpdir}\steam_icons\{id}_{md5(url)}{ext}` and that path returned; a
request exception or non-200 status defers.  Both url templates end in
`.jpg`, so `os.path.splitext(url)[1]` is always `".jpg"`. -/
def download_icon (env : Env) (tmpdir : String) (game_id : Nat) :
    Option String :=
  let cdn_urls :=
    ["https://cdn.cloudflare.steamstatic.com/steam/apps/" ++
       toString game_id ++ "/library_600x900.jpg",
     "https://media.steampowered.com/steamcommunity/public/images/apps/" ++
       toString game_id ++ "/" ++ toString game_id ++ ".jpg"]
  cdn_urls.findSome? fun url =>
    match env.httpStatus url with
    | some 200 =>
      some (tmpdir ++ "\\steam_icons\\" ++ toString game_id ++ "_" ++
        env.urlHash url ++ ".jpg")
    | _ => none

/- ------------------------------------------------------------------
`Steam.get_game_icon` (steam.py lines 141-175).
------------------------------------------------------------------ -/

/-- Outcome of one execution of the `get_game_icon` body: the returned
value, the in-memory map `self._icon_cache` afterwards, and which of the
three fallback tiers were executed. -/
structure BodyTrace where
  result : Option String
  icache : List (Nat × Option String)
  regRan : Bool
  localRan : Bool
  remoteRan : Bool
deriving DecidableEq

/-- Lines 159-175 of `get_game_icon`: the tier chain run when the memory
check does not answer.  A truthy (non-`None`, non-empty) tier result is
stored and returned; the final remote tier's result — `None` included — is
always stored.  The `executor.submit(...).result()` around the remote tier
blocks immediately, so it is a plain call. -/
def run_icon_tiers (env : Env) (tmpdir steamPath : String)
    (icache : List (Nat × Option String)) (game_id : Nat) : BodyTrace :=
  let r := get_registry_icon_path env game_id
  if pyTruthyOptStr r then
    ⟨r, pySetItem icache game_id r, true, false, false⟩
  else
    let l := get_local_icon_path env steamPath game_id
    if pyTruthyOptStr l then
      ⟨l, pySetItem icache game_id l, true, true, false⟩
    else
      let d := download_icon env tmpdir game_id
      ⟨d, pySetItem icache game_id d, true, true, true⟩

/-- The body of `Steam.get_game_icon` (lines 151-175), i.e. what runs on an
`lru_cache` miss.  Memory check first: a stored truthy path that still
exists is returned; a stored `None` is returned; a stored stale or empty
path falls through to the tier chain. -/
def get_game_icon_body (env : Env) (tmpdir steamPath : String)
    (icache : List (Nat × Option String)) (game_id : Nat) : BodyTrace :=
  match icache.lookup game_id with
  | some cached =>
    if pyTruthyOptStr cached && env.pathExists (cached.getD "") then
      ⟨cached, icache, false, false, false⟩
    else if cached = none then
      ⟨none, icache, false, false, false⟩
    else
      run_icon_tiers env tmpdir steamPath icache game_id
  | none => run_icon_tiers env tmpdir steamPath icache game_id

/-- The mutable per-instance state of a `Steam` object that the claims
touch: the `@lru_cache` memo on `get_game_icon` (keyed by `game_id` for a
fixed instance; LRU eviction only occurs past 512 distinct keys and is not
modelled), the explicit map `self._icon_cache`, and `self.path`. -/
structure SteamState where
  lru : List (Nat × Option String)
  icache : List (Nat × Option String)
  path : String
deriving DecidableEq

/-- Outcome of a `get_game_icon` call through the `lru_cache` wrapper. -/
structure ResolveTrace where
  result : Option String
  state : SteamState
  regRan : Bool
  localRan : Bool
  remoteRan : Bool
deriving DecidableEq

/-- `Steam.get_game_icon` (lines 141-175) including the `@lru_cache`
decorator (line 141): a memo hit returns the memoized value without running
the body; a miss runs the body and memoizes its result. -/
def get_game_icon (env : Env) (tmpdir : String) (st : SteamState)
    (game_id : Nat) : ResolveTrace :=
  match st.lru.lookup game_id with
  | some r => ⟨r, st, false, false, false⟩
  | none =>
    let t := get_game_icon_body env tmpdir st.path st.icache game_id
    ⟨t.result, ⟨pySetItem st.lru game_id t.result, t.icache, st.path⟩,
      t.regRan, t.localRan, t.remoteRan⟩

/- ------------------------------------------------------------------
`Steam.__init__` / `Steam.from_registry` (steam.py lines 28-51, 85-92).
------------------------------------------------------------------ -/

/-- The two failure kinds `__init__` can raise after a candidate root is
chosen: `FileNotFoundError('Steam installation not found at: ...')`
(line 47) and `SteamExecutableNotFound` (line 49). -/
inductive InitError : Type where
  | installationNotFound (path : String) : InitError
  | executableMissing (path : String) : InitError
deriving DecidableEq

/-- `Steam.from_registry` (lines 85-92): HKLM `InstallPath` first; on
`FileNotFoundError`, HKCU `SteamPath`; a second failure escapes as
`FileNotFoundError` (modelled as `none`). -/
def from_registry (env : Env) : Option String :=
  match env.hklmInstallPath with
  | some p => some p
  | none => env.hkcuSteamPath

/-- The candidate root chosen by `__init__` (lines 38-44): the explicit
path when given; otherwise `from_registry`, falling back to
`DEFAULT_STEAM_PATH` when that raises `FileNotFoundError`. -/
def init_candidate (env : Env) (path : Option String) : String :=
  match path with
  | some p => p
  | none => (from_registry env).getD DEFAULT_STEAM_PATH

/-- `Steam.__init__` (lines 28-51): choose the candidate root, demand it
exists, demand it contains `steam.exe`, then load the icon cache into the
fresh state (`_icon_cache` starts empty at line 33; the `lru_cache` memo of
a fresh instance is empty). -/
def steam_init (env : Env) (cacheFile : Option CacheFileContent)
    (path : Option String) : Except InitError SteamState :=
  let p := init_candidate env path
  if !env.pathExists p then .error (.installationNotFound p)
  else if !env.pathExists (p ++ "\\" ++ STEAM_EXE) then
    .error (.executableMissing p)
  else .ok ⟨[], load_icon_cache cacheFile, p⟩

/- ------------------------------------------------------------------
`Steam.libraries` (steam.py lines 305-329).
------------------------------------------------------------------ -/

/-- Failures of `libraries`: `SteamLibraryNotFound` when the manifest file
is absent (line 314), and any exception raised while reading the manifest —
a `VDF` parse failure, the `KeyError` when neither top-level key spelling is
present, or iterating a non-mapping value — which is logged and re-raised
(lines 327-329). -/
inductive LibrariesError : Type where
  | steamLibraryNotFound (manifestPath : String) : LibrariesError
  | configError : LibrariesError
deriving DecidableEq

/-- The second argument `Steam.libraries` passes to `Library(self, path)`
for one manifest entry (line 322): `value.get('path', value)` when the
value is a mapping, the value itself otherwise.  `Library` itself lives in
plugin/library.py (not under src), so a `Library` is identified with this
path argument. -/
def library_entry_path (value : VDFVal) : VDFVal :=
  match value with
  | .dict d => (d.lookup "path").getD (.dict d)
  | .str s => .str s

/-- Lines 318-323 of `Steam.libraries`: pick the top-level key
(`libraryfolders` when present, else `LibraryFolders`), then keep the
numeric-keyed entries in order. -/
def libraries_from_doc (doc : List (String × VDFVal)) :
    Except LibrariesError (List VDFVal) :=
  let libraries_key := if (doc.lookup "libraryfolders").isSome then
      "libraryfolders" else "LibraryFolders"
  match doc.lookup libraries_key with
  | none => .error .configError
  | some (.str _) => .error .configError
  | some (.dict entries) =>
    .ok ((entries.filter fun kv => pyIsdigit kv.1).map fun kv =>
      library_entry_path kv.2)

/-- `Steam.libraries` (lines 305-329) on a fresh instance
(`self._library_cache is None`, so the session cache at lines 307-308 is a
miss and is not modelled): absent manifest file raises
`SteamLibraryNotFound`; otherwise the manifest is parsed and its entries
converted. -/
def libraries (env : Env) (steamPath : String) :
    Except LibrariesError (List VDFVal) :=
  let manifest_path := steamPath ++ "\\steamapps\\libraryfolders.vdf"
  if !env.pathExists manifest_path then
    .error (.steamLibraryNotFound manifest_path)
  else
    match env.vdfDoc manifest_path with
    | none => .error .configError
    | some doc => libraries_from_doc doc

/- ------------------------------------------------------------------
`Steam.loginusers` (steam.py lines 107-121) and the most-recent-user
selection in main.py (line 22).
------------------------------------------------------------------ -/

/-- Python truthiness of a VDF node: an empty string and an empty mapping
are falsy. -/
def pyTruthyVDF : VDFVal → Bool
  | .str s => s ≠ ""
  | .dict d => !d.isEmpty

/-- A `LoginUser` as constructed at lines 118-120:
`LoginUser(ID=user, steam_path=self.path, **fields)`.  The `LoginUser`
class lives in plugin/loginusers.py (not under src), so it is identified
with its constructor arguments. -/
structure LoginUser where
  ID : String
  steam_path : String
  fields : List (String × VDFVal)
deriving BEq

/-- Modelled from the spec: plugin/loginusers.py is not under src; spec §3
gives `LoginUser` an `isMostRecent: bool` built from the (normalized)
`MostRecent` keyword argument. -/
def LoginUser.isMostRecent (u : LoginUser) : Bool :=
  match u.fields.lookup "MostRecent" with
  | some v => pyTruthyVDF v
  | none => false

/-- Lines 114-116 of `Steam.loginusers`: when the user's mapping holds a
truthy `mostrecent` value, pop that key and store its value under
`MostRecent`. -/
def normalize_mostrecent (d : List (String × VDFVal)) :
    List (String × VDFVal) :=
  match d.lookup "mostrecent" with
  | some v =>
    if pyTruthyVDF v then pySetItem (pyPop d "mostrecent") "MostRecent" v
    else d
  | none => d

/-- Failure of `Steam.loginusers`: a missing or unparsable
`config/loginusers.vdf` (the external `VDF` raising), a missing `users`
key, or a non-mapping node where a mapping is iterated. -/
inductive UsersError : Type where
  | configError : UsersError
deriving DecidableEq

/-- `Steam.loginusers` (lines 107-121): parse `config/loginusers.vdf`,
normalize each user's `mostrecent` flag key, and construct the `LoginUser`
records in enumeration order. -/
def loginusers (env : Env) (steamPath : String) :
    Except UsersError (List LoginUser) :=
  match env.vdfDoc (steamPath ++ "\\config\\loginusers.vdf") with
  | none => .error .configError
  | some doc =>
    match doc.lookup "users" with
    | none => .error .configError
    | some (.str _) => .error .configError
    | some (.dict users) =>
      users.mapM fun kv =>
        match kv.2 with
        | .str _ => .error .configError
        | .dict d => .ok ⟨kv.1, steamPath, normalize_mostrecent d⟩

/-- Modelled from the spec: `LoginUsers.most_recent` lives in
plugin/loginusers.py (not under src); spec §4.3 has
`mostRecent() -> LoginUser | none` and §3 "the single user flagged
most-recent" — modelled as the first flagged user, `none` when no user is
flagged. -/
def most_recent (users : List LoginUser) : Option LoginUser :=
  users.find? LoginUser.isMostRecent

/-- main.py line 22: `most_recent_user = users.most_recent() or users[0]` —
a `LoginUser` object is truthy, so the flagged user when `most_recent`
returns one, else the first enumerated user (`none` models the `IndexError`
on an empty collection). -/
def most_recent_user_selection (users : List LoginUser) : Option LoginUser :=
  match most_recent users with
  | some u => some u
  | none => users.head?

/- ------------------------------------------------------------------
`Steam.all_games` (steam.py lines 267-303) and the icon glue in
`SteamSearch.query` (main.py lines 32-46).
------------------------------------------------------------------ -/

/-- Modelled from the spec: the `Game` objects yielded by
`Library.games()` live in plugin/library.py (not under src); spec §3 has
`Game: { id: positive integer, name: string, installPath: path }`, so
`int(game.id)` in `all_games` is the identity on `id`. -/
structure Game where
  id : Nat
  name : String
  path : String
deriving DecidableEq

/-- Lines 270-281 of `all_games`: the `game_ids` set.  CPython set
iteration order is unspecified; it is modelled as first-occurrence
insertion order, which fixes one admissible order — the claims use only
membership and cardinality. -/
def pySetOfIds (games : List Game) : List Nat :=
  games.foldl (fun acc g => if g.id ∈ acc then acc else acc ++ [g.id]) []

/-- Lines 283-297 of `all_games`: one `get_game_icon` task is submitted per
element of the `game_ids` set, and `icon_map` records each task's result —
`none` when the task raised an unexpected exception (`.error` in the task
behavior), which is caught and logged at lines 295-297. -/
def all_games_icon_map (task : Nat → Except String (Option String))
    (games : List Game) : List (Nat × Option String) :=
  (pySetOfIds games).map fun i =>
    (i, match task i with
        | .ok v => v
        | .error _ => none)

/-- One record of the list `all_games` returns (lines 275-280, 300-301):
`icon` is `Optional[str]` from `icon_map`, or the install path when the id
is absent from `icon_map` (the `.get` default at line 301). -/
structure GameRecord where
  id : Nat
  name : String
  path : String
  icon : Option String
deriving DecidableEq

/-- `Steam.all_games` (lines 267-303) given the games enumerated from the
libraries and the behavior of each icon-resolution task. -/
def all_games (task : Nat → Except String (Option String))
    (games : List Game) : List GameRecord :=
  games.map fun g =>
    ⟨g.id, g.name, g.path,
      match (all_games_icon_map task games).lookup g.id with
      | some v => v
      | none => some g.path⟩

/-- main.py lines 36 and 41: `icon = item.get('icon') or str(item['path'])`
followed by `icon=str(icon)` — the icon string surfaced to the launcher for
one record.  A `None` or empty icon is falsy, so the install path's string
form is used instead. -/
def query_icon (item : GameRecord) : String :=
  match item.icon with
  | some p => if p ≠ "" then p else item.path
  | none => item.path

end Steam

/- ------------------------------------------------------------------
Shared helper lemmas about the dict and set models.
------------------------------------------------------------------ -/

theorem lookup_map_setItem {α β : Type} [BEq α] [LawfulBEq α]
    (d : List (α × β)) (k : α) (v : β) (h : (d.lookup k).isSome = true) :
    (d.map fun kv => if kv.1 == k then (k, v) else kv).lookup k = some v := by
  induction d with
  | nil => simp at h
  | cons kv tl ih =>
    obtain ⟨a, b⟩ := kv
    by_cases heq : a = k
    · subst heq
      simp [List.lookup_cons]
    · have h1 : (a == k) = false := by simp [heq]
      have h2 : (k == a) = false := by simp [Ne.symm heq]
      have h' : (tl.lookup k).isSome = true := by
        simpa [List.lookup_cons, h2] using h
      simp [List.lookup_cons, h1, h2, ih h']

theorem lookup_append_single {α β : Type} [BEq α] [LawfulBEq α]
    (d : List (α × β)) (k : α) (v : β) (h : d.lookup k = none) :
    (d ++ [(k, v)]).lookup k = some v := by
  induction d with
  | nil => simp [List.lookup_cons]
  | cons kv tl ih =>
    obtain ⟨a, b⟩ := kv
    by_cases heq : k = a
    · subst heq
      simp [List.lookup_cons] at h
    · have h2 : (k == a) = false := by simp [heq]
      have h' : tl.lookup k = none := by
        simpa [List.lookup_cons, h2] using h
      simp [List.lookup_cons, h2, ih h']

theorem lookup_pySetItem {α β : Type} [BEq α] [LawfulBEq α]
    (d : List (α × β)) (k : α) (v : β) :
    (pySetItem d k v).lookup k = some v := by
  unfold pySetItem
  by_cases h : (d.lookup k).isSome
  · rw [if_pos h]
    exact lookup_map_setItem d k v h
  · rw [if_neg h]
    refine lookup_append_single d k v ?_
    cases hc : d.lookup k with
    | none => rfl
    | some w => exact absurd (by simp [hc]) h

theorem lookup_map_setItem_ne {α β : Type} [BEq α] [LawfulBEq α]
    (d : List (α × β)) (k k' : α) (v : β) (hne : k' ≠ k) :
    (d.map fun kv => if kv.1 == k then (k, v) else kv).lookup k' =
      d.lookup k' := by
  induction d with
  | nil => simp
  | cons kv tl ih =>
    obtain ⟨a, b⟩ := kv
    by_cases heq : a = k
    · have h1 : (a == k) = true := by simp [heq]
      have h2 : (k' == k) = false := by simp [hne]
      have h3 : (k' == a) = false := by simp [heq, hne]
      simp [List.lookup_cons, h1, h2, h3, ih]
    · have h1 : (a == k) = false := by simp [heq]
      simp [List.lookup_cons, h1, ih]

theorem lookup_append_single_ne {α β : Type} [BEq α] [LawfulBEq α]
    (d : List (α × β)) (k k' : α) (v : β) (hne : k' ≠ k) :
    (d ++ [(k, v)]).lookup k' = d.lookup k' := by
  induction d with
  | nil => simp [List.lookup_cons, (by simp [hne] : (k' == k) = false)]
  | cons kv tl ih =>
    obtain ⟨a, b⟩ := kv
    cases hc : k' == a with
    | true => simp [List.lookup_cons, hc]
    | false => simp [List.lookup_cons, hc, ih]

theorem lookup_pySetItem_ne {α β : Type} [BEq α] [LawfulBEq α]
    (d : List (α × β)) (k k' : α) (v : β) (hne : k' ≠ k) :
    (pySetItem d k v).lookup k' = d.lookup k' := by
  unfold pySetItem
  by_cases h : (d.lookup k).isSome
  · rw [if_pos h]
    exact lookup_map_setItem_ne d k k' v hne
  · rw [if_neg h]
    exact lookup_append_single_ne d k k' v hne

theorem lookup_pyPop {α β : Type} [BEq α] [LawfulBEq α]
    (d : List (α × β)) (k : α) :
    (pyPop d k).lookup k = none := by
  unfold pyPop
  induction d with
  | nil => simp
  | cons kv tl ih =>
    obtain ⟨a, b⟩ := kv
    by_cases heq : a = k
    · have h1 : (!(a == k)) = false := by simp [heq]
      simp [List.filter_cons, h1, ih]
    · have h1 : (!(a == k)) = true := by simp [heq]
      have h2 : (k == a) = false := by simp [Ne.symm heq]
      simp [List.filter_cons, h1, List.lookup_cons, h2, ih]

/-- Membership in the `game_ids` set built by the fold in `all_games`. -/
theorem pySet_fold_mem (games : List Steam.Game) (acc : List Nat) (i : Nat) :
    i ∈ games.foldl
      (fun acc g => if g.id ∈ acc then acc else acc ++ [g.id]) acc ↔
    i ∈ acc ∨ i ∈ games.map Steam.Game.id := by
  induction games generalizing acc with
  | nil => simp
  | cons g tl ih =>
    simp only [List.foldl_cons, List.map_cons, List.mem_cons]
    by_cases hg : g.id ∈ acc
    · rw [if_pos hg, ih]
      constructor
      · rintro (h | h)
        · exact Or.inl h
        · exact Or.inr (Or.inr h)
      · rintro (h | h | h)
        · exact Or.inl h
        · exact Or.inl (h ▸ hg)
        · exact Or.inr h
    · rw [if_neg hg, ih]
      simp only [List.mem_append, List.mem_singleton]
      constructor
      · rintro ((h | h) | h)
        · exact Or.inl h
        · exact Or.inr (Or.inl h)
        · exact Or.inr (Or.inr h)
      · rintro (h | h | h)
        · exact Or.inl (Or.inl h)
        · exact Or.inl (Or.inr h)
        · exact Or.inr h

theorem pySet_fold_nodup (games : List Steam.Game) (acc : List Nat)
    (h : acc.Nodup) :
    (games.foldl
      (fun acc g => if g.id ∈ acc then acc else acc ++ [g.id]) acc).Nodup := by
  induction games generalizing acc with
  | nil => exact h
  | cons g tl ih =>
    simp only [List.foldl_cons]
    by_cases hg : g.id ∈ acc
    · rw [if_pos hg]; exact ih _ h
    · rw [if_neg hg]
      refine ih _ (List.nodup_append.mpr ⟨h, List.nodup_singleton _,
        fun x hx hx' => ?_⟩)
      simp only [List.mem_singleton] at hx'
      exact hg (hx' ▸ hx)

/-- Lookup in an id-keyed map built by `List.map` succeeds at every member
key and returns the function's value there. -/
theorem lookup_map_pair {β : Type} (l : List Nat) (f : Nat → β) (j : Nat)
    (hj : j ∈ l) :
    (l.map fun i => (i, f i)).lookup j = some (f j) := by
  induction l with
  | nil => simp at hj
  | cons a tl ih =>
    by_cases heq : j = a
    · subst heq
      simp [List.lookup_cons]
    · have h2 : (j == a) = false := by simp [heq]
      have hj' : j ∈ tl := by
        rcases List.mem_cons.mp hj with h | h
        · exact absurd h heq
        · exact h
      simp [List.lookup_cons, h2, ih hj']

/-- `List.find?` returns the unique element selected by a singleton
filter. -/
theorem find?_of_filter_singleton {α : Type} (p : α → Bool) (l : List α)
    (u : α) (h : l.filter p = [u]) : l.find? p = some u := by
  induction l with
  | nil => simp at h
  | cons a tl ih =>
    by_cases ha : p a = true
    · rw [List.filter_cons_of_pos ha] at h
      injection h with h1 h2
      rw [List.find?_cons_of_pos _ ha, h1]
    · have ha' : p a = false := by simpa using ha
      rw [List.filter_cons_of_neg (by simp [ha'])] at h
      rw [List.find?_cons_of_neg _ (by simp [ha'])]
      exact ih h

/- ------------------------------------------------------------------
A concrete environment used to instantiate hypotheses at concrete inputs:
nothing exists, every registry and network probe misses.
------------------------------------------------------------------ -/

def testEnv : Env where
  pathExists := fun _ => false
  expandvars := fun s => s
  abspath := fun s => if s = "" then "C:\\" else s
  regKeyExists := fun _ _ => false
  regQuery := fun _ _ _ => none
  httpStatus := fun _ => none
  urlHash := fun _ => "f00d"
  hklmInstallPath := none
  hkcuSteamPath := none
  vdfDoc := fun _ => none

/- ------------------------------------------------------------------
C3 — persistent cache round-trip.
------------------------------------------------------------------ -/

/-- C3 counterexample: the round-trip claim fails for the empty mapping.
`_save_icon_cache` returns without writing when the in-memory map is empty
(steam.py lines 72-73), so a pre-existing version-matching cache file
survives and a fresh session loads that file's mapping, not the empty
one. -/
theorem c3_empty_save_counterexample :
    Steam.load_icon_cache
      (Steam.save_icon_cache (some (.pickled 2 [(1, some "a")])) []) =
      [(1, some "a")] ∧
    ([(1, some "a")] : List (Nat × Option String)) ≠ [] := by
  constructor
  · rfl
  · simp

/-- C3 (amended): saving a NON-EMPTY identifier-to-optional-path mapping and
loading it in a fresh session with the same format version reproduces
exactly that mapping; loading a cache file whose format version does not
match the running version yields an empty mapping; saving an empty mapping
writes nothing, leaving the prior cache file in place. -/
theorem c3_cache_roundtrip (m : List (Nat × Option String))
    (prior : Option CacheFileContent) (v : Nat)
    (hm : m ≠ []) (hv : v ≠ CACHE_VERSION) :
    Steam.load_icon_cache (Steam.save_icon_cache prior m) = m ∧
    Steam.load_icon_cache (some (.pickled v m)) = [] ∧
    Steam.save_icon_cache prior [] = prior := by
  refine ⟨?_, ?_, ?_⟩
  · simp [Steam.save_icon_cache, hm, Steam.load_icon_cache]
  · simp [Steam.load_icon_cache, hv]
  · simp [Steam.save_icon_cache]

/-- Witness for C3 at a concrete mapping, prior file and version. -/
theorem c3_cache_roundtrip_witness :
    Steam.load_icon_cache
      (Steam.save_icon_cache none [(7, some "C:\\i.ico"), (9, none)]) =
      [(7, some "C:\\i.ico"), (9, none)] ∧
    Steam.load_icon_cache
      (some (.pickled 1 [(7, some "C:\\i.ico"), (9, none)])) = [] ∧
    Steam.save_icon_cache none [] = none :=
  c3_cache_roundtrip [(7, some "C:\\i.ico"), (9, none)] none 1
    (by simp) (by simp [CACHE_VERSION])

/- ------------------------------------------------------------------
C5 — installation location failure kinds.
------------------------------------------------------------------ -/

/-- C5: constructing the installation fails with the not-found kind when no
candidate source (explicit path, either registry value, default path) names
an existing directory; it fails with the distinct executable-missing kind
when the candidate exists but lacks `steam.exe`; and a missing registry key
never escapes as an error — with both registry values missing, construction
behaves exactly as with the default path, and with only HKLM missing the
HKCU value is used.  (Existence is `Path.exists`, as in the source.) -/
theorem c5_locate_failure_kinds (env : Env)
    (cf : Option CacheFileContent) (path : Option String) :
    ((∀ p, path = some p → env.pathExists p = false) →
     (∀ p, env.hklmInstallPath = some p → env.pathExists p = false) →
     (∀ p, env.hkcuSteamPath = some p → env.pathExists p = false) →
     env.pathExists DEFAULT_STEAM_PATH = false →
     Steam.steam_init env cf path =
       .error (.installationNotFound (Steam.init_candidate env path))) ∧
    (env.pathExists (Steam.init_candidate env path) = true →
     env.pathExists (Steam.init_candidate env path ++ "\\" ++ STEAM_EXE)
       = false →
     Steam.steam_init env cf path =
       .error (.executableMissing (Steam.init_candidate env path))) ∧
    (env.hklmInstallPath = none → env.hkcuSteamPath = none →
     Steam.steam_init env cf none =
       Steam.steam_init env cf (some DEFAULT_STEAM_PATH)) ∧
    (env.hklmInstallPath = none →
     Steam.init_candidate env none =
       env.hkcuSteamPath.getD DEFAULT_STEAM_PATH) := by
  refine ⟨?_, ?_, ?_, ?_⟩
  · intro hexp hklm hkcu hdef
    have hc : env.pathExists (Steam.init_candidate env path) = false := by
      cases path with
      | some p => exact hexp p rfl
      | none =>
        unfold Steam.init_candidate Steam.from_registry
        cases h1 : env.hklmInstallPath with
        | some p => exact hklm p h1
        | none =>
          cases h2 : env.hkcuSteamPath with
          | some p => simp [hkcu p h2]
          | none => simpa using hdef
    unfold Steam.steam_init
    simp [hc]
  · intro h1 h2
    unfold Steam.steam_init
    simp [h1, h2]
  · intro h1 h2
    unfold Steam.steam_init Steam.init_candidate Steam.from_registry
    simp [h1, h2]
  · intro h1
    unfold Steam.init_candidate Steam.from_registry
    simp [h1]

/-- Witness for C5: a concrete environment where nothing exists yields the
not-found kind at the default path; one where the root exists without
`steam.exe` yields the executable-missing kind. -/
theorem c5_locate_failure_kinds_witness :
    Steam.steam_init testEnv none none =
      .error (.installationNotFound DEFAULT_STEAM_PATH) ∧
    Steam.steam_init { testEnv with pathExists := (· == "C:\\S") } none
      (some "C:\\S") = .error (.executableMissing "C:\\S") ∧
    Steam.init_candidate testEnv none = DEFAULT_STEAM_PATH := by
  refine ⟨?_, ?_, ?_⟩
  · exact (c5_locate_failure_kinds testEnv none none).1
      (by intro p hp; cases hp) (by intro p hp; cases hp)
      (by intro p hp; cases hp) rfl
  · exact (c5_locate_failure_kinds
      { testEnv with pathExists := (· == "C:\\S") } none (some "C:\\S")).2.1
      rfl rfl
  · exact ((c5_locate_failure_kinds testEnv none none).2.2.2 rfl).trans rfl

/- ------------------------------------------------------------------
C6 — library manifest entry forms and top-level key spellings.
------------------------------------------------------------------ -/

/-- C6: a numeric-keyed manifest entry whose value is a bare path string
and one whose value is a nested mapping with a `path` key yield the same
`Library` path argument, under either of the two top-level key spellings;
when neither spelling is present the catalog gives up with the re-raised
lookup error. -/
theorem c6_library_entry_forms (k p : String) (hk : pyIsdigit k = true) :
    Steam.library_entry_path (.str p) =
      Steam.library_entry_path (.dict [("path", .str p)]) ∧
    Steam.libraries_from_doc [("libraryfolders", .dict [(k, .str p)])] =
      .ok [.str p] ∧
    Steam.libraries_from_doc
      [("libraryfolders", .dict [(k, .dict [("path", .str p)])])] =
      .ok [.str p] ∧
    Steam.libraries_from_doc [("LibraryFolders", .dict [(k, .str p)])] =
      .ok [.str p] ∧
    (∀ d : List (String × VDFVal), d.lookup "libraryfolders" = none →
      d.lookup "LibraryFolders" = none →
      Steam.libraries_from_doc d = .error .configError) := by
  refine ⟨rfl, ?_, ?_, ?_, ?_⟩
  · simp [Steam.libraries_from_doc, List.lookup_cons, List.filter_cons, hk,
      Steam.library_entry_path]
  · simp [Steam.libraries_from_doc, List.lookup_cons, List.filter_cons, hk,
      Steam.library_entry_path]
  · simp [Steam.libraries_from_doc, List.lookup_cons, List.filter_cons, hk,
      Steam.library_entry_path]
  · intro d h1 h2
    simp [Steam.libraries_from_doc, h1, h2]

/-- Witness for C6 at the numeric key "0" and a concrete path. -/
theorem c6_library_entry_forms_witness :
    Steam.library_entry_path (.str "D:\\SteamLibrary") =
      Steam.library_entry_path (.dict [("path", .str "D:\\SteamLibrary")]) ∧
    Steam.libraries_from_doc
      [("libraryfolders", .dict [("0", .str "D:\\SteamLibrary")])] =
      .ok [.str "D:\\SteamLibrary"] ∧
    Steam.libraries_from_doc
      [("libraryfolders",
        .dict [("0", .dict [("path", .str "D:\\SteamLibrary")])])] =
      .ok [.str "D:\\SteamLibrary"] ∧
    Steam.libraries_from_doc
      [("LibraryFolders", .dict [("0", .str "D:\\SteamLibrary")])] =
      .ok [.str "D:\\SteamLibrary"] ∧
    Steam.libraries_from_doc [("contentstatsid", .str "42")] =
      .error .configError := by
  obtain ⟨h1, h2, h3, h4, h5⟩ :=
    c6_library_entry_forms "0" "D:\\SteamLibrary" (by decide)
  exact ⟨h1, h2, h3, h4, h5 [("contentstatsid", .str "42")] rfl rfl⟩

/- ------------------------------------------------------------------
C9 — missing library manifest.
------------------------------------------------------------------ -/

/-- C9: when the `libraryfolders.vdf` manifest is absent under the
installation root, `libraries` fails with `SteamLibraryNotFound` naming the
manifest path; and `loginusers` depends only on the content of
`config/loginusers.vdf`, so that failure leaves user-account enumeration
unaffected (any environment agreeing on the login-users file — in
particular one where the manifest exists — enumerates the same users). -/
theorem c9_manifest_not_found (env : Env) (root : String)
    (h : env.pathExists (root ++ "\\steamapps\\libraryfolders.vdf")
      = false) :
    Steam.libraries env root = .error
      (.steamLibraryNotFound (root ++ "\\steamapps\\libraryfolders.vdf")) ∧
    (∀ env2 : Env,
      env2.vdfDoc (root ++ "\\config\\loginusers.vdf") =
        env.vdfDoc (root ++ "\\config\\loginusers.vdf") →
      Steam.loginusers env2 root = Steam.loginusers env root) := by
  constructor
  · unfold Steam.libraries
    simp [h]
  · intro env2 h2
    unfold Steam.loginusers
    rw [h2]

/-- Witness for C9 in a concrete environment without the manifest: the
failure is `SteamLibraryNotFound`, and an environment in which every file
exists but the login-users file parses identically enumerates the same
users. -/
theorem c9_manifest_not_found_witness :
    Steam.libraries testEnv "C:\\S" = .error
      (.steamLibraryNotFound "C:\\S\\steamapps\\libraryfolders.vdf") ∧
    Steam.loginusers { testEnv with pathExists := fun _ => true } "C:\\S" =
      Steam.loginusers testEnv "C:\\S" := by
  obtain ⟨h1, h2⟩ := c9_manifest_not_found testEnv "C:\\S" rfl
  exact ⟨h1, h2 { testEnv with pathExists := fun _ => true } rfl⟩

/- ------------------------------------------------------------------
C1 / C2 — the memory tier and the write-back invariant of
`get_game_icon`.
------------------------------------------------------------------ -/

theorem get_game_icon_lru_hit (env : Env) (tmpdir : String)
    (st : Steam.SteamState) (i : Nat) (r : Option String)
    (h : st.lru.lookup i = some r) :
    Steam.get_game_icon env tmpdir st i = ⟨r, st, false, false, false⟩ := by
  unfold Steam.get_game_icon
  rw [h]

theorem run_icon_tiers_writeback (env : Env) (tmpdir sp : String)
    (icache : List (Nat × Option String)) (i : Nat) :
    (Steam.run_icon_tiers env tmpdir sp icache i).icache.lookup i =
      some (Steam.run_icon_tiers env tmpdir sp icache i).result := by
  unfold Steam.run_icon_tiers
  by_cases h1 : pyTruthyOptStr (Steam.get_registry_icon_path env i) = true
  · simp [h1, lookup_pySetItem]
  · by_cases h2 : pyTruthyOptStr (Steam.get_local_icon_path env sp i) = true
    · simp [h1, h2, lookup_pySetItem]
    · simp [h1, h2, lookup_pySetItem]

theorem get_game_icon_body_writeback (env : Env) (tmpdir sp : String)
    (icache : List (Nat × Option String)) (i : Nat) :
    (Steam.get_game_icon_body env tmpdir sp icache i).icache.lookup i =
      some (Steam.get_game_icon_body env tmpdir sp icache i).result := by
  unfold Steam.get_game_icon_body
  cases hc : icache.lookup i with
  | none => simpa using run_icon_tiers_writeback env tmpdir sp icache i
  | some cached =>
    by_cases h1 :
        (pyTruthyOptStr cached && env.pathExists (cached.getD "")) = true
    · simp [h1, hc]
    · by_cases h2 : cached = none
      · subst h2
        simp [h1, hc]
      · simpa [h1, h2] using run_icon_tiers_writeback env tmpdir sp icache i

/-- C1 counterexample: an identifier present as a key in the in-memory map
with a stored path that no longer exists on disk does NOT short-circuit —
`get_game_icon` re-executes the registry tier (and the rest of the chain)
and does not return the stored value. -/
theorem c1_stale_entry_counterexample :
    (([(5, some "C:\\old\\icon.ico")] :
        List (Nat × Option String)).lookup 5 =
      some (some "C:\\old\\icon.ico")) ∧
    (Steam.get_game_icon testEnv "C:\\T"
      ⟨[], [(5, some "C:\\old\\icon.ico")], "C:\\S"⟩ 5).regRan = true ∧
    (Steam.get_game_icon testEnv "C:\\T"
      ⟨[], [(5, some "C:\\old\\icon.ico")], "C:\\S"⟩ 5).result ≠
      some "C:\\old\\icon.ico" := by
  refine ⟨rfl, ?_, ?_⟩
  · decide
  · decide

/-- C1 (amended): for an identifier present as a key in the in-memory map
(and not yet in the method-level memo), `get_game_icon` returns the stored
value immediately — including a stored `none` — without executing the
registry, local-file, or remote tiers, PROVIDED the stored value is `none`
or a non-empty path that exists on disk; a stored path that is empty or no
longer exists falls through and re-executes the tiers. -/
theorem c1_memory_tier_short_circuit (env : Env) (tmpdir : String)
    (st : Steam.SteamState) (i : Nat) (v : Option String)
    (hlru : st.lru.lookup i = none)
    (hmem : st.icache.lookup i = some v)
    (hok : v = none ∨ ∃ p, v = some p ∧ p ≠ "" ∧ env.pathExists p = true) :
    (Steam.get_game_icon env tmpdir st i).result = v ∧
    (Steam.get_game_icon env tmpdir st i).state.icache = st.icache ∧
    (Steam.get_game_icon env tmpdir st i).regRan = false ∧
    (Steam.get_game_icon env tmpdir st i).localRan = false ∧
    (Steam.get_game_icon env tmpdir st i).remoteRan = false := by
  simp only [Steam.get_game_icon, hlru]
  simp only [Steam.get_game_icon_body, hmem]
  rcases hok with h | ⟨p, hp, hne, hex⟩
  · subst h
    simp [pyTruthyOptStr]
  · subst hp
    simp [pyTruthyOptStr, hne, hex]

/-- Witness for C1 at a concrete map entry whose stored path exists. -/
theorem c1_memory_tier_short_circuit_witness :
    (Steam.get_game_icon { testEnv with pathExists := (· == "C:\\i.ico") }
      "C:\\T" ⟨[], [(7, some "C:\\i.ico")], "C:\\S"⟩ 7).result =
      some "C:\\i.ico" ∧
    (Steam.get_game_icon { testEnv with pathExists := (· == "C:\\i.ico") }
      "C:\\T" ⟨[], [(7, some "C:\\i.ico")], "C:\\S"⟩ 7).state.icache =
      [(7, some "C:\\i.ico")] ∧
    (Steam.get_game_icon { testEnv with pathExists := (· == "C:\\i.ico") }
      "C:\\T" ⟨[], [(7, some "C:\\i.ico")], "C:\\S"⟩ 7).regRan = false ∧
    (Steam.get_game_icon { testEnv with pathExists := (· == "C:\\i.ico") }
      "C:\\T" ⟨[], [(7, some "C:\\i.ico")], "C:\\S"⟩ 7).localRan = false ∧
    (Steam.get_game_icon { testEnv with pathExists := (· == "C:\\i.ico") }
      "C:\\T" ⟨[], [(7, some "C:\\i.ico")], "C:\\S"⟩ 7).remoteRan = false :=
  c1_memory_tier_short_circuit
    { testEnv with pathExists := (· == "C:\\i.ico") } "C:\\T"
    ⟨[], [(7, some "C:\\i.ico")], "C:\\S"⟩ 7 (some "C:\\i.ico") rfl rfl
    (Or.inr ⟨"C:\\i.ico", rfl, by decide, by decide⟩)

/-- C2: on a call not yet served by the method-level memo, the outcome of
whichever tier answered — a path on success, or an explicit `none` when the
final remote tier is exhausted — is present in the in-memory map under the
identifier when the call returns, and a second lookup of the same
identifier in the same session returns the same value while executing no
tier at all (in particular no remote/network tier). -/
theorem c2_writeback_and_memoized_second_lookup (env : Env)
    (tmpdir : String) (st : Steam.SteamState) (i : Nat)
    (hlru : st.lru.lookup i = none) :
    ((Steam.get_game_icon env tmpdir st i).state.icache.lookup i =
      some (Steam.get_game_icon env tmpdir st i).result) ∧
    (Steam.get_game_icon env tmpdir
        (Steam.get_game_icon env tmpdir st i).state i).result =
      (Steam.get_game_icon env tmpdir st i).result ∧
    (Steam.get_game_icon env tmpdir
        (Steam.get_game_icon env tmpdir st i).state i).regRan = false ∧
    (Steam.get_game_icon env tmpdir
        (Steam.get_game_icon env tmpdir st i).state i).localRan = false ∧
    (Steam.get_game_icon env tmpdir
        (Steam.get_game_icon env tmpdir st i).state i).remoteRan = false := by
  have hb := get_game_icon_body_writeback env tmpdir st.path st.icache i
  have hlru2 :
      (Steam.get_game_icon env tmpdir st i).state.lru.lookup i =
        some (Steam.get_game_icon env tmpdir st i).result := by
    simp only [Steam.get_game_icon, hlru]
    exact lookup_pySetItem _ _ _
  refine ⟨?_, ?_, ?_, ?_, ?_⟩
  · simp only [Steam.get_game_icon, hlru]
    exact hb
  all_goals rw [get_game_icon_lru_hit _ _ _ _ _ hlru2]

/-- Witness for C2 on a fresh state in a concrete environment. -/
theorem c2_writeback_and_memoized_second_lookup_witness :
    ((Steam.get_game_icon testEnv "C:\\T" ⟨[], [], "C:\\S"⟩
        5).state.icache.lookup 5 =
      some (Steam.get_game_icon testEnv "C:\\T" ⟨[], [], "C:\\S"⟩
        5).result) ∧
    (Steam.get_game_icon testEnv "C:\\T"
        (Steam.get_game_icon testEnv "C:\\T" ⟨[], [], "C:\\S"⟩
          5).state 5).result =
      (Steam.get_game_icon testEnv "C:\\T" ⟨[], [], "C:\\S"⟩ 5).result ∧
    (Steam.get_game_icon testEnv "C:\\T"
        (Steam.get_game_icon testEnv "C:\\T" ⟨[], [], "C:\\S"⟩
          5).state 5).regRan = false ∧
    (Steam.get_game_icon testEnv "C:\\T"
        (Steam.get_game_icon testEnv "C:\\T" ⟨[], [], "C:\\S"⟩
          5).state 5).localRan = false ∧
    (Steam.get_game_icon testEnv "C:\\T"
        (Steam.get_game_icon testEnv "C:\\T" ⟨[], [], "C:\\S"⟩
          5).state 5).remoteRan = false :=
  c2_writeback_and_memoized_second_lookup testEnv "C:\\T" ⟨[], [], "C:\\S"⟩
    5 rfl

/- ------------------------------------------------------------------
C4 — batch deduplication.
------------------------------------------------------------------ -/

/-- C4: the batch gathered by `all_games` is deduplicated before dispatch —
the dispatched id list has no duplicates yet covers exactly the ids of the
enumerated games — and a batch with ids {5, 5, 7} dispatches exactly two
resolutions, one per distinct id. -/
theorem c4_batch_dedup (games : List Steam.Game)
    (task : Nat → Except String (Option String)) :
    (Steam.pySetOfIds games).Nodup ∧
    (∀ i, i ∈ Steam.pySetOfIds games ↔ i ∈ games.map Steam.Game.id) ∧
    Steam.pySetOfIds
      [⟨5, "A", "pA"⟩, ⟨5, "B", "pB"⟩, ⟨7, "C", "pC"⟩] = [5, 7] ∧
    (Steam.all_games_icon_map task
      [⟨5, "A", "pA"⟩, ⟨5, "B", "pB"⟩, ⟨7, "C", "pC"⟩]).length = 2 := by
  have hset : Steam.pySetOfIds
      [⟨5, "A", "pA"⟩, ⟨5, "B", "pB"⟩, ⟨7, "C", "pC"⟩] = [5, 7] := by decide
  refine ⟨?_, ?_, hset, ?_⟩
  · exact pySet_fold_nodup games [] List.nodup_nil
  · intro i
    unfold Steam.pySetOfIds
    rw [pySet_fold_mem games [] i]
    simp
  · simp [Steam.all_games_icon_map, hset]

/- ------------------------------------------------------------------
C8 — per-task failure isolation in the batch.
------------------------------------------------------------------ -/

/-- C8: in a batch resolution, every gathered identifier gets an entry in
`icon_map`; a task that raised an unexpected exception is recorded as
`none` for its identifier, and a task that returned normally is recorded
with its value — one task's failure never loses a sibling's result. -/
theorem c8_batch_task_isolation
    (task : Nat → Except String (Option String))
    (games : List Steam.Game) (i : Nat)
    (hi : i ∈ games.map Steam.Game.id) :
    (∃ w, (Steam.all_games_icon_map task games).lookup i = some w) ∧
    (∀ e, task i = .error e →
      (Steam.all_games_icon_map task games).lookup i = some none) ∧
    (∀ v, task i = .ok v →
      (Steam.all_games_icon_map task games).lookup i = some v) := by
  have hmem : i ∈ Steam.pySetOfIds games := by
    unfold Steam.pySetOfIds
    exact (pySet_fold_mem games [] i).mpr (Or.inr hi)
  have hl : (Steam.all_games_icon_map task games).lookup i =
      some (match task i with | .ok v => v | .error _ => none) := by
    unfold Steam.all_games_icon_map
    exact lookup_map_pair (Steam.pySetOfIds games) _ i hmem
  refine ⟨⟨_, hl⟩, ?_, ?_⟩
  · intro e he
    rw [hl, he]
  · intro v hv
    rw [hl, hv]

/-- Witness for C8: in a two-id batch where the task for 5 throws, id 5 is
recorded as `none` and id 7 still gets its resolved path. -/
theorem c8_batch_task_isolation_witness :
    (Steam.all_games_icon_map
      (fun i => if i = 5 then .error "boom" else .ok (some "C:\\7.jpg"))
      [⟨5, "A", "pA"⟩, ⟨7, "B", "pB"⟩]).lookup 5 = some none ∧
    (Steam.all_games_icon_map
      (fun i => if i = 5 then .error "boom" else .ok (some "C:\\7.jpg"))
      [⟨5, "A", "pA"⟩, ⟨7, "B", "pB"⟩]).lookup 7 =
      some (some "C:\\7.jpg") := by
  constructor
  · exact (c8_batch_task_isolation
      (fun i => if i = 5 then .error "boom" else .ok (some "C:\\7.jpg"))
      [⟨5, "A", "pA"⟩, ⟨7, "B", "pB"⟩] 5 (by decide)).2.1 "boom" rfl
  · exact (c8_batch_task_isolation
      (fun i => if i = 5 then .error "boom" else .ok (some "C:\\7.jpg"))
      [⟨5, "A", "pA"⟩, ⟨7, "B", "pB"⟩] 7 (by decide)).2.2
      (some "C:\\7.jpg") rfl

/- ------------------------------------------------------------------
C10 — icon fallback to the install path in the surfaced record.
------------------------------------------------------------------ -/

/-- C10: the record `all_games` produces for a game carries the game's
resolved icon outcome; when that outcome is `none` the launcher-facing icon
string (main.py line 36) is the string form of the install path, and when
it is a (non-empty) path the icon string is that path. -/
theorem c10_icon_fallback_to_path
    (task : Nat → Except String (Option String))
    (games : List Steam.Game) (g : Steam.Game) (hg : g ∈ games) :
    ((⟨g.id, g.name, g.path,
        match task g.id with | .ok v => v | .error _ => none⟩ :
      Steam.GameRecord) ∈ Steam.all_games task games) ∧
    ((match task g.id with | .ok v => v | .error _ => none) =
        (none : Option String) →
      Steam.query_icon ⟨g.id, g.name, g.path, none⟩ = g.path) ∧
    (∀ p, (match task g.id with | .ok v => v | .error _ => none) = some p →
      p ≠ "" →
      Steam.query_icon ⟨g.id, g.name, g.path, some p⟩ = p) := by
  have hmem : g.id ∈ Steam.pySetOfIds games := by
    unfold Steam.pySetOfIds
    exact (pySet_fold_mem games [] g.id).mpr
      (Or.inr (List.mem_map_of_mem _ hg))
  have hl : (Steam.all_games_icon_map task games).lookup g.id =
      some (match task g.id with | .ok v => v | .error _ => none) := by
    unfold Steam.all_games_icon_map
    exact lookup_map_pair (Steam.pySetOfIds games) _ g.id hmem
  refine ⟨?_, ?_, ?_⟩
  · unfold Steam.all_games
    refine List.mem_map.mpr ⟨g, hg, ?_⟩
    rw [hl]
  · intro _
    rfl
  · intro p _ hne
    simp [Steam.query_icon, hne]

/-- Witness for C10: a game whose resolution yields `none` surfaces its
install path as the icon, one whose resolution yields a path surfaces that
path. -/
theorem c10_icon_fallback_to_path_witness :
    ((⟨5, "A", "pA", none⟩ : Steam.GameRecord) ∈ Steam.all_games
      (fun i => if i = 5 then .ok none else .ok (some "C:\\7.jpg"))
      [⟨5, "A", "pA"⟩, ⟨7, "B", "pB"⟩]) ∧
    Steam.query_icon ⟨5, "A", "pA", none⟩ = "pA" ∧
    Steam.query_icon ⟨7, "B", "pB", some "C:\\7.jpg"⟩ = "C:\\7.jpg" := by
  have h5 := c10_icon_fallback_to_path
    (fun i => if i = 5 then .ok none else .ok (some "C:\\7.jpg"))
    [⟨5, "A", "pA"⟩, ⟨7, "B", "pB"⟩] ⟨5, "A", "pA"⟩ (by decide)
  have h7 := c10_icon_fallback_to_path
    (fun i => if i = 5 then .ok none else .ok (some "C:\\7.jpg"))
    [⟨5, "A", "pA"⟩, ⟨7, "B", "pB"⟩] ⟨7, "B", "pB"⟩ (by decide)
  exact ⟨h5.1, h5.2.1 rfl, h7.2.2 "C:\\7.jpg" rfl (by decide)⟩

/- ------------------------------------------------------------------
C7 — `mostrecent` flag normalization and most-recent selection.
------------------------------------------------------------------ -/

/-- C7 counterexample: a lowercase `mostrecent` key whose value is the
empty (falsy) string is NOT normalized — the `LoginUser` is constructed
with the lowercase key still present and no `MostRecent` key, contradicting
the claim that the key is normalized before construction. -/
theorem c7_falsy_flag_counterexample :
    Steam.loginusers
      { testEnv with vdfDoc := (fun _ =>
          some [("users",
            .dict [("111", .dict [("mostrecent", .str "")])])]) }
      "C:\\S" =
      .ok [⟨"111", "C:\\S", [("mostrecent", .str "")]⟩] ∧
    ([(("mostrecent" : String), VDFVal.str "")].lookup "MostRecent" =
      none) := by
  exact ⟨rfl, rfl⟩

/-- C7 (amended): a lowercase `mostrecent` flag key with a TRUTHY value is
normalized to `MostRecent` before the `LoginUser` is constructed (a falsy
value leaves the key untouched), a mapping without the lowercase key is
passed through unchanged (so a `MostRecent` spelling is accepted as is);
most-recent selection returns the flagged user when exactly one user
carries the flag, and when no user is flagged the first enumerated user is
used. -/
theorem c7_mostrecent_normalization_and_selection
    (d : List (String × VDFVal)) (v : VDFVal)
    (users : List Steam.LoginUser) (u : Steam.LoginUser)
    (hd : d.lookup "mostrecent" = some v)
    (hv : Steam.pyTruthyVDF v = true)
    (hone : users.filter Steam.LoginUser.isMostRecent = [u]) :
    ((Steam.normalize_mostrecent d).lookup "MostRecent" = some v ∧
     (Steam.normalize_mostrecent d).lookup "mostrecent" = none) ∧
    (∀ d2 : List (String × VDFVal), d2.lookup "mostrecent" = none →
      Steam.normalize_mostrecent d2 = d2) ∧
    Steam.most_recent_user_selection users = some u ∧
    (∀ us : List Steam.LoginUser,
      (∀ x ∈ us, Steam.LoginUser.isMostRecent x = false) →
      Steam.most_recent_user_selection us = us.head?) := by
  refine ⟨⟨?_, ?_⟩, ?_, ?_, ?_⟩
  · unfold Steam.normalize_mostrecent
    rw [hd]
    simp only [hv, if_true]
    exact lookup_pySetItem _ _ _
  · unfold Steam.normalize_mostrecent
    rw [hd]
    simp only [hv, if_true]
    rw [lookup_pySetItem_ne _ _ _ _ (by decide)]
    exact lookup_pyPop _ _
  · intro d2 h2
    unfold Steam.normalize_mostrecent
    rw [h2]
  · unfold Steam.most_recent_user_selection Steam.most_recent
    rw [find?_of_filter_singleton _ _ _ hone]
  · intro us hall
    unfold Steam.most_recent_user_selection Steam.most_recent
    rw [List.find?_eq_none.mpr (fun x hx => by simp [hall x hx])]

/-- Witness for C7: a truthy lowercase flag is normalized; a user list with
exactly one flagged user selects it; a list with no flagged user selects
its head. -/
theorem c7_mostrecent_normalization_and_selection_witness :
    ((Steam.normalize_mostrecent
        [("mostrecent", .str "1")]).lookup "MostRecent" =
      some (.str "1") ∧
     (Steam.normalize_mostrecent
        [("mostrecent", .str "1")]).lookup "mostrecent" = none) ∧
    Steam.normalize_mostrecent [("AccountName", VDFVal.str "bob")] =
      [("AccountName", VDFVal.str "bob")] ∧
    Steam.most_recent_user_selection
      [⟨"2", "C:\\S", [("AccountName", VDFVal.str "bob")]⟩,
       ⟨"1", "C:\\S", [("MostRecent", VDFVal.str "1")]⟩] =
      some ⟨"1", "C:\\S", [("MostRecent", VDFVal.str "1")]⟩ ∧
    Steam.most_recent_user_selection
      [⟨"2", "C:\\S", [("AccountName", VDFVal.str "bob")]⟩] =
      [(⟨"2", "C:\\S", [("AccountName", VDFVal.str "bob")]⟩ :
        Steam.LoginUser)].head? := by
  have h := c7_mostrecent_normalization_and_selection
    [("mostrecent", .str "1")] (.str "1")
    [⟨"2", "C:\\S", [("AccountName", VDFVal.str "bob")]⟩,
     ⟨"1", "C:\\S", [("MostRecent", VDFVal.str "1")]⟩]
    ⟨"1", "C:\\S", [("MostRecent", VDFVal.str "1")]⟩
    rfl rfl rfl
  refine ⟨h.1, h.2.1 [("AccountName", VDFVal.str "bob")] rfl, h.2.2.1,
    h.2.2.2 [⟨"2", "C:\\S", [("AccountName", VDFVal.str "bob")]⟩] ?_⟩
  intro x hx
  rw [List.mem_singleton.mp hx]
  rfl

end SteamSearch
